import Mathlib

/-!
Shallow embedding of `Overseer.py`, the single-file automation controller of
the Overseer repository, together with proofs about the behaviours its
specification describes: per-run script launching (`execute_script`, the
script-starting loop of `main`), the trigger-file monitor
(`monitor_trigger_file`), shutdown (`shutdown_all_processes`), log-file path
construction, and the exit behaviour of the whole program.

Modelling conventions:
* Python tuples returned by `execute_script` are modelled as `List PyVal`,
  so that the caller's three-variable unpacking (which raises `ValueError`
  on a tuple of the wrong length) is representable.
* The OS environment is passed explicitly: whether launching a process
  raises, whether a process exits within the grace period after SIGTERM,
  what the monitored file contains, and what happens during a monitor wait
  (trigger line appears, read error, operator interrupt).
* `stop_event` is a plain `Bool`.  In the source no signal handler is ever
  installed: the only writers of `stop_event` are `shutdown_all_processes`
  (which sets it and clears it again before returning) and the
  `__main__` handler, which runs only after `main` has already exited.
  An operator interrupt therefore manifests inside `main` as a
  `KeyboardInterrupt` exception, which is how the model treats it.
-/

namespace Overseer

/-- `BASE_LOG_DIR` constant from the source. -/
def BASE_LOG_DIR : String := "logs"

/-- `TRIGGER_SCRIPT_NAME` constant from the source. -/
def TRIGGER_SCRIPT_NAME : String := "Gnuradio_TX"

/-- `TRIGGER_WORD` constant from the source. -/
def TRIGGER_WORD : String := "Finished"

/-- `os.path.join` for a relative second component (the only way the source
uses it). -/
def os_path_join (a b : String) : String := a ++ "/" ++ b

/-- The per-run log directory: `os.path.join(BASE_LOG_DIR, f"run_{run_number}")`. -/
def run_log_dir (run_number : Nat) : String :=
  os_path_join BASE_LOG_DIR ("run_" ++ toString run_number)

/-- The per-script log file path built by `execute_script`:
`os.path.join(run_log_dir, f"{name}.txt")`. -/
def log_filename (rld name : String) : String :=
  os_path_join rld (name ++ ".txt")

/-- The serial log path built in `main`:
`os.path.join(run_log_dir, "serial.txt")`. -/
def serial_log_path (run_number : Nat) : String :=
  os_path_join (run_log_dir run_number) "serial.txt"

/-- One entry of `config.json`'s `scripts_to_run`.  `enabled` is `Option Bool`
because the key may be absent (`script_conf.get('enabled', False)`). -/
structure ScriptConfig where
  name : String
  type : String
  script_path : String
  env_name : String
  enabled : Option Bool
deriving Repr, DecidableEq

/-- A Python value as it appears in the tuples `execute_script` returns:
`None`, a `Popen` object (identified by its command string), a string
(the log path), or an open file object (identified by its path). -/
inductive PyVal where
  | pyNone
  | proc (cmd : String)
  | str (s : String)
  | fileHandle (path : String)
deriving Repr, DecidableEq

/-- The `command_list` built inside `execute_script` for each recognised
script type. -/
def command_list (script_type script_path env_name : String) : List String :=
  if script_type = "shell" then [script_path]
  else if script_type = "local" then ["python", "-u", script_path]
  else if script_type = "conda" then
    ["conda", "run", "-n", env_name, "python", "-u", script_path]
  else []

/-- `execute_script(script_config, run_log_dir)` as a Python tuple.
`launchRaises` says whether opening the log file or `Popen` raises.
Branches mirror the source exactly:
* recognised type, launch succeeds: `return process, log_filename, log_file`
  (a 3-tuple);
* recognised type, launch raises: the `except` branch runs,
  `return None, None, None` (a 3-tuple);
* unknown type: `return None, None` (a 2-tuple). -/
def execute_script (sc : ScriptConfig) (rld : String) (launchRaises : Bool) :
    List PyVal :=
  if sc.type = "shell" ∨ sc.type = "local" ∨ sc.type = "conda" then
    if launchRaises then [PyVal.pyNone, PyVal.pyNone, PyVal.pyNone]
    else
      let cmd := " ".intercalate (command_list sc.type sc.script_path sc.env_name)
      [PyVal.proc cmd, PyVal.str (log_filename rld sc.name),
       PyVal.fileHandle (log_filename rld sc.name)]
  else [PyVal.pyNone, PyVal.pyNone]

/-- The caller's three-variable unpacking
`process, log_path, log_file_handle = execute_script(...)`.
A tuple of any other length raises `ValueError`. -/
def unpack3 (t : List PyVal) : Except String (PyVal × PyVal × PyVal) :=
  match t with
  | [a, b, c] => Except.ok (a, b, c)
  | _ => Except.error "ValueError: not enough values to unpack (expected 3)"

/-- Python truthiness of the first tuple slot (`if process:`). -/
def PyVal.truthy : PyVal → Bool
  | PyVal.pyNone => false
  | _ => true

/-- Extract the string of a `PyVal.str`, as the caller's
`trigger_log_path = log_path` assignment stores it. -/
def PyVal.asStr : PyVal → Option String
  | PyVal.str s => some s
  | _ => none

/-- Substring containment, the semantics of Python's `trigger_word in line`. -/
def containsSub (hay needle : String) : Bool :=
  decide (needle.toList <:+: hay.toList)

/-- Index of the first line containing the trigger word, the order in which
the monitor's `readline` loop visits lines. -/
def find_first_idx (tw : String) : List String → Option Nat
  | [] => none
  | l :: ls =>
      if containsSub l tw then some 0
      else (find_first_idx tw ls).map (· + 1)

/-- Observable outcome of `monitor_trigger_file`. In the source the function
always just returns `None`; the constructors record *why* it returned (or why
it would still be blocked at the model's horizon). -/
inductive MonitorResult where
  | cancelled
  | errorReturn
  | found (idx : Nat)
  | pending
deriving Repr, DecidableEq

/-- `monitor_trigger_file(log_path, trigger_word)`.
The monitored file is modelled as `preLines` (content already in the file
when monitoring begins) followed by `appendedLines` (content appended while
the monitor runs); the source opens the file with `open(log_path, 'r')`,
i.e. at offset 0, so its `readline` loop visits `preLines ++ appendedLines`
in order.  `stopSet` is the value of `stop_event` at entry, `fileExists`
whether the file (eventually) exists, `readRaises` whether `open`/`readline`
raises mid-wait (the `except` swallows it and the function returns).
`pending` stands for the states in which the source is still sleeping and
polling. -/
def monitor_trigger_file (stopSet fileExists readRaises : Bool)
    (preLines appendedLines : List String) (tw : String) : MonitorResult :=
  if stopSet then MonitorResult.cancelled
  else if !fileExists then MonitorResult.pending
  else if readRaises then MonitorResult.errorReturn
  else
    match find_first_idx tw (preLines ++ appendedLines) with
    | some i => MonitorResult.found i
    | none => MonitorResult.pending

/-- State of one managed `Popen` object together with its log file handle,
as stored in `active_processes[name] = {'process': ..., 'log_file': ...}`.
`respondsToTerm` is the environment's answer to whether the process exits
within the 5-second grace period after `terminate()`. -/
structure ProcState where
  cmd : String
  alive : Bool
  respondsToTerm : Bool
  logOpen : Bool
deriving Repr, DecidableEq

/-- The observable actions the per-process part of `shutdown_all_processes`
performs, in order. -/
inductive Action where
  | sigTerm
  | waitGrace
  | sigKill
  | closeLog
deriving Repr, DecidableEq

/-- The body of the per-process loop in `shutdown_all_processes`:
`terminate()`, `wait(timeout=5)`, `kill()` only when the wait raises
`TimeoutExpired`, then `log_file.close()`.  Returns the process's final
state and the ordered list of actions taken. -/
def shutdown_entry (p : ProcState) : ProcState × List Action :=
  let termActs :=
    if p.alive && !p.respondsToTerm then
      [Action.sigTerm, Action.waitGrace, Action.sigKill]
    else
      [Action.sigTerm, Action.waitGrace]
  ({ p with alive := false, logOpen := false }, termActs ++ [Action.closeLog])

/-- The mutable global state `shutdown_all_processes` reads and writes. -/
structure OverseerState where
  active_processes : List (String × ProcState)
  stop_event : Bool
  serial_open : Bool
deriving Repr, DecidableEq

/-- `shutdown_all_processes()`: sets `stop_event`, closes the serial port,
terminates every entry of `active_processes` (via `shutdown_entry`), clears
the map, and clears `stop_event` again.  Returns the new global state and
the final states of the processes it terminated (which the cleared map no
longer holds, but the OS still sees). -/
def shutdown_all_processes (s : OverseerState) :
    OverseerState × List (String × ProcState) :=
  ({ active_processes := [], stop_event := false, serial_open := false },
   s.active_processes.map (fun e => (e.1, (shutdown_entry e.2).1)))

/-- Accumulator of the script-starting loop in `main` (lines 168-188):
the `active_processes` entries added so far and `trigger_log_path`. -/
structure RunStart where
  active : List (String × ProcState)
  trigger_log_path : Option String
deriving Repr, DecidableEq

/-- The script-starting loop of `main`:
`for script_conf in config_data['scripts_to_run']: ...`.
`raises` says per script name whether the launch raises inside
`execute_script`'s `try`; `responds` feeds `ProcState.respondsToTerm`.
A `ValueError` from the three-variable unpacking aborts the loop and is
returned as `some msg` alongside the entries registered before the crash. -/
def start_scripts (rld : String) (raises responds : String → Bool) :
    List ScriptConfig → RunStart → RunStart × Option String
  | [], st => (st, none)
  | sc :: rest, st =>
      if sc.enabled.getD false then
        match unpack3 (execute_script sc rld (raises sc.name)) with
        | Except.error e => (st, some e)
        | Except.ok (p, logPath, _logFile) =>
            if p.truthy then
              let entry : ProcState :=
                { cmd := match p with | PyVal.proc c => c | _ => ""
                  alive := true
                  respondsToTerm := responds sc.name
                  logOpen := true }
              let st' : RunStart :=
                { active := st.active ++ [(sc.name, entry)]
                  trigger_log_path :=
                    if sc.name = TRIGGER_SCRIPT_NAME then logPath.asStr
                    else st.trigger_log_path }
              start_scripts rld raises responds rest st'
            else start_scripts rld raises responds rest st
      else start_scripts rld raises responds rest st

/-- What happens during the `monitor_trigger_file` wait of one run:
the trigger word appears, reading the file raises (swallowed by the
monitor's `except`), or the operator interrupts (a `KeyboardInterrupt`
exception in the main thread). -/
inductive RunEvent where
  | monitorFound
  | monitorReadError
  | monitorInterrupt
deriving Repr, DecidableEq

/-- How the `while True:` loop of `main` ends (or fails to end within
`fuel` iterations).  Each constructor carries the `active_processes`
entries at that moment. -/
inductive LoopResult where
  | fatalTriggerMissing (active : List (String × ProcState))
  | interrupted (active : List (String × ProcState))
  | crashed (msg : String) (active : List (String × ProcState))
  | outOfFuel (run_number : Nat) (active : List (String × ProcState))
deriving Repr, DecidableEq

/-- The `while True:` loop of `main`, one recursion step per run.
Per run: start the enabled scripts; if `trigger_log_path` is falsy,
`break`; otherwise block in `monitor_trigger_file`, during which the
environment delivers `events run_number`.  When the monitor returns
(trigger found, or a read error swallowed by its `except`), the
`if stop_event.is_set()` check at line 199 is `False` — no signal handler
is installed and `shutdown_all_processes` cleared the event — so the loop
runs `shutdown_all_processes()`, increments `run_number` and recurses with
an empty map.  A `KeyboardInterrupt` or `ValueError` propagates out of the
loop immediately. -/
def main_loop (cfg : List ScriptConfig) (events : Nat → RunEvent)
    (raises : Nat → String → Bool) (responds : String → Bool) :
    Nat → Nat → List (String × ProcState) → LoopResult
  | 0, n, act => LoopResult.outOfFuel n act
  | fuel + 1, n, act =>
      let started := start_scripts (run_log_dir n) (raises n) responds cfg
        { active := act, trigger_log_path := none }
      match started.2 with
      | some m => LoopResult.crashed m started.1.active
      | none =>
          match started.1.trigger_log_path with
          | none => LoopResult.fatalTriggerMissing started.1.active
          | some _ =>
              match events n with
              | RunEvent.monitorInterrupt => LoopResult.interrupted started.1.active
              | _ => main_loop cfg events raises responds fuel (n + 1) []

/-- What the operating system observes when the controller process exits. -/
structure ExitReport where
  exit_code : Nat
  final_shutdown_ran : Bool
  leftover : List (String × ProcState)
  stop_set_at_exit : Bool
deriving Repr, DecidableEq

/-- The whole program: `main()` wrapped in the `__main__` block.
* config load failure: `sys.exit(1)` — exit code 1, nothing launched;
* loop breaks because the trigger script is missing: the final
  `shutdown_all_processes()` at line 209 runs, `main` returns, exit code 0;
* `KeyboardInterrupt` propagates out of `main` (skipping line 209), the
  `__main__` handler sets `stop_event` and the process exits 0 with the
  launched processes untouched;
* any other exception (the `ValueError` from unpacking) is uncaught:
  traceback and exit code 1, launched processes untouched;
* `none` when the loop is still running after `fuel` runs. -/
def overseer_program (configLoads : Bool) (cfg : List ScriptConfig)
    (events : Nat → RunEvent) (raises : Nat → String → Bool)
    (responds : String → Bool) (fuel : Nat) : Option ExitReport :=
  if !configLoads then
    some { exit_code := 1, final_shutdown_ran := false, leftover := [],
           stop_set_at_exit := false }
  else
    match main_loop cfg events raises responds fuel 1 [] with
    | LoopResult.fatalTriggerMissing act =>
        let (s, finals) := shutdown_all_processes
          { active_processes := act, stop_event := false, serial_open := true }
        some { exit_code := 0, final_shutdown_ran := true, leftover := finals,
               stop_set_at_exit := s.stop_event }
    | LoopResult.interrupted act =>
        some { exit_code := 0, final_shutdown_ran := false, leftover := act,
               stop_set_at_exit := true }
    | LoopResult.crashed _ act =>
        some { exit_code := 1, final_shutdown_ran := false, leftover := act,
               stop_set_at_exit := false }
    | LoopResult.outOfFuel _ _ => none

/-- A sample `scripts_to_run` entry for the trigger script, used to
instantiate theorems at concrete inputs. -/
def gnuradioTxLocal : ScriptConfig :=
  { name := "Gnuradio_TX", type := "local", script_path := "tx.py",
    env_name := "", enabled := some true }

/-- A sample entry with an unrecognised `type`. -/
def dockerTypeScript : ScriptConfig :=
  { name := "Gnuradio_TX", type := "docker", script_path := "tx.py",
    env_name := "", enabled := some true }

/-- A sample managed process that ignores the graceful stop signal, used to
instantiate theorems at concrete inputs. -/
def sampleProc : ProcState :=
  { cmd := "python -u tx.py", alive := true, respondsToTerm := false,
    logOpen := true }

/-- A sample global state with one live process, used to instantiate
theorems at concrete inputs. -/
def sampleState : OverseerState :=
  { active_processes := [("Gnuradio_TX", sampleProc)],
    stop_event := true, serial_open := true }

/-!  Theorems about the claims. -/

/-- C8: if `stop_event` is already set when `monitor_trigger_file` is
invoked, the wait-for-existence loop is skipped (its condition is false),
the `if stop_event.is_set(): return` fires before the file is opened, and
the function returns the cancelled outcome regardless of whether the file
exists, whether reading would raise, and whatever the file contains — so
no content is read. -/
theorem C8_cancelled_immediately_without_reading (fe rr : Bool)
    (pre app : List String) (tw : String) :
    monitor_trigger_file true fe rr pre app tw = MonitorResult.cancelled := rfl

/-- C9 counterexample: the per-script log file of run 1 for the script
named `Gnuradio_TX` is `logs/run_1/Gnuradio_TX.txt` and the serial log is
`logs/run_1/serial.txt` — the source uses the `.txt` extension, not the
`.log` extension the claim states. -/
theorem C9_txt_not_log_counterexample :
    log_filename (run_log_dir 1) "Gnuradio_TX" = "logs/run_1/Gnuradio_TX.txt" ∧
    log_filename (run_log_dir 1) "Gnuradio_TX" ≠ "logs/run_1/Gnuradio_TX.log" ∧
    serial_log_path 1 = "logs/run_1/serial.txt" ∧
    serial_log_path 1 ≠ "logs/run_1/serial.log" := by
  refine ⟨rfl, ?_, rfl, ?_⟩ <;> decide

/-- C9 amended: for every run number `N` and script name, the merged
stdout+stderr log of a launched script is written at
`logs/run_<N>/<name>.txt`, and the serial log at `logs/run_<N>/serial.txt`
(`.txt` extension, with `logs` the base log directory). -/
theorem C9_log_paths_txt (n : Nat) (name : String) :
    log_filename (run_log_dir n) name =
      "logs/run_" ++ toString n ++ "/" ++ name ++ ".txt" ∧
    serial_log_path n = "logs/run_" ++ toString n ++ "/serial.txt" := by
  constructor <;>
  · simp only [log_filename, run_log_dir, serial_log_path, os_path_join,
      BASE_LOG_DIR, String.append_assoc]
    rfl

/-- C6: `shutdown_all_processes` is idempotent — a second call on the state
the first call leaves behind terminates nothing and returns the same state —
and after the first call the process map is empty, `stop_event` is cleared,
the serial port is closed, and every process the call terminated is not
alive with its log file handle closed. -/
theorem C6_shutdown_idempotent_and_clean (s : OverseerState) :
    shutdown_all_processes (shutdown_all_processes s).1 =
      ((shutdown_all_processes s).1, []) ∧
    (shutdown_all_processes s).1.active_processes = [] ∧
    (shutdown_all_processes s).1.stop_event = false ∧
    (shutdown_all_processes s).1.serial_open = false ∧
    ((shutdown_all_processes s).2.all fun e =>
      !e.2.alive && !e.2.logOpen) = true := by
  refine ⟨rfl, rfl, rfl, rfl, ?_⟩
  simp [shutdown_all_processes, shutdown_entry, List.all_map, Function.comp]

/-- C7: for every managed process, the per-process shutdown code first sends
the graceful stop signal (the first action is SIGTERM, followed by the
grace-period wait), sends the forceful kill exactly when the process was
alive and did not exit within the grace period, and in every case closes the
process's log file handle as the last action before returning; afterwards the
process is not alive and its log handle is closed. -/
theorem C7_terminate_grace_kill_close (p : ProcState) :
    (shutdown_entry p).2.head? = some Action.sigTerm ∧
    (shutdown_entry p).2.take 2 = [Action.sigTerm, Action.waitGrace] ∧
    (Action.sigKill ∈ (shutdown_entry p).2 ↔
      p.alive = true ∧ p.respondsToTerm = false) ∧
    (shutdown_entry p).2.getLast? = some Action.closeLog ∧
    (shutdown_entry p).1.alive = false ∧
    (shutdown_entry p).1.logOpen = false := by
  rcases p with ⟨cmd, alive, resp, lo⟩
  cases alive <;> cases resp <;> simp [shutdown_entry]

/-- C1: evaluation of the code at the failing input.  `execute_script` on an
entry whose `type` is unrecognised returns the 2-tuple `(None, None)`, the
caller's three-variable unpacking of it raises `ValueError`, and the whole
controller run with such an enabled entry crashes with a non-zero exit,
no final shutdown pass, instead of omitting the entry and continuing. -/
theorem C1_unknown_type_crashes_controller :
    (execute_script dockerTypeScript (run_log_dir 1) false).length = 2 ∧
    unpack3 (execute_script dockerTypeScript (run_log_dir 1) false) =
      Except.error "ValueError: not enough values to unpack (expected 3)" ∧
    overseer_program true [dockerTypeScript] (fun _ => RunEvent.monitorFound)
      (fun _ _ => false) (fun _ => true) 1 =
      some { exit_code := 1, final_shutdown_ran := false, leftover := [],
             stop_set_at_exit := false } := by
  refine ⟨rfl, rfl, by decide⟩

/-- C3: evaluation of the code at the failing input.  An operator interrupt
during the monitor wait of run 1 propagates as `KeyboardInterrupt` out of
`main`, skipping the final `shutdown_all_processes()` call; the `__main__`
handler sets `stop_event` only after `main` has exited, and the controller
exits (code 0) with no final shutdown pass and the launched trigger process
still alive with its log handle open. -/
theorem C3_interrupt_skips_final_shutdown :
    overseer_program true [gnuradioTxLocal] (fun _ => RunEvent.monitorInterrupt)
      (fun _ _ => false) (fun _ => true) 1 =
      some { exit_code := 0, final_shutdown_ran := false,
             leftover := [("Gnuradio_TX",
               { cmd := "python -u tx.py", alive := true,
                 respondsToTerm := true, logOpen := true })],
             stop_set_at_exit := true } := by
  decide

/-- One-step unfolding of the script-starting loop (the defining equation of
`start_scripts` on a cons cell). -/
theorem start_scripts_cons (rld : String) (raises responds : String → Bool)
    (x : ScriptConfig) (rest : List ScriptConfig) (st : RunStart) :
    start_scripts rld raises responds (x :: rest) st =
      (if x.enabled.getD false then
        match unpack3 (execute_script x rld (raises x.name)) with
        | Except.error e => (st, some e)
        | Except.ok (p, logPath, _logFile) =>
            if p.truthy then
              start_scripts rld raises responds rest
                { active := st.active ++ [(x.name,
                    { cmd := match p with | PyVal.proc c => c | _ => ""
                      alive := true
                      respondsToTerm := responds x.name
                      logOpen := true })]
                  trigger_log_path :=
                    if x.name = TRIGGER_SCRIPT_NAME then logPath.asStr
                    else st.trigger_log_path }
            else start_scripts rld raises responds rest st
      else start_scripts rld raises responds rest st) := rfl

/-- C10: a `scripts_to_run` entry whose configuration omits the `enabled`
key is treated as disabled: the script-starting loop behaves exactly as if
the entry were not in the list at all, so the entry is never launched,
never enters the process map, and never becomes the trigger source. -/
theorem C10_missing_enabled_treated_disabled (rld : String)
    (raises responds : String → Bool) (sc : ScriptConfig)
    (h : sc.enabled = none) (pre post : List ScriptConfig) (st : RunStart) :
    start_scripts rld raises responds (pre ++ sc :: post) st =
      start_scripts rld raises responds (pre ++ post) st := by
  induction pre generalizing st with
  | nil =>
      rw [List.nil_append, List.nil_append, start_scripts_cons, h]
      simp
  | cons x xs ih =>
      rw [List.cons_append, List.cons_append, start_scripts_cons,
        start_scripts_cons]
      cases hx : x.enabled.getD false with
      | false => simpa [hx] using ih st
      | true =>
          simp only [hx, if_true]
          cases hu : unpack3 (execute_script x rld (raises x.name)) with
          | error e => rfl
          | ok t =>
              obtain ⟨p, lp, lf⟩ := t
              cases hp : p.truthy with
              | false => simpa [hp] using ih st
              | true => simpa [hp] using ih _

/-- C10 witness: the theorem applied to a concrete entry lacking the
`enabled` key. -/
theorem C10_missing_enabled_witness :
    start_scripts "logs/run_1" (fun _ => false) (fun _ => true)
      ([gnuradioTxLocal] ++
        { name := "Camera", type := "local", script_path := "cam.py",
          env_name := "", enabled := none } :: [])
      { active := [], trigger_log_path := none } =
    start_scripts "logs/run_1" (fun _ => false) (fun _ => true)
      ([gnuradioTxLocal] ++ [])
      { active := [], trigger_log_path := none } :=
  C10_missing_enabled_treated_disabled "logs/run_1" (fun _ => false)
    (fun _ => true)
    { name := "Camera", type := "local", script_path := "cam.py",
      env_name := "", enabled := none }
    rfl [gnuradioTxLocal] [] { active := [], trigger_log_path := none }

/-- One-step unfolding of the run loop at positive fuel (the defining
equation of `main_loop`). -/
theorem main_loop_succ (cfg : List ScriptConfig) (events : Nat → RunEvent)
    (raises : Nat → String → Bool) (responds : String → Bool)
    (fuel n : Nat) (act : List (String × ProcState)) :
    main_loop cfg events raises responds (fuel + 1) n act =
      (let started := start_scripts (run_log_dir n) (raises n) responds cfg
        { active := act, trigger_log_path := none }
       match started.2 with
       | some m => LoopResult.crashed m started.1.active
       | none =>
          match started.1.trigger_log_path with
          | none => LoopResult.fatalTriggerMissing started.1.active
          | some _ =>
              match events n with
              | RunEvent.monitorInterrupt =>
                  LoopResult.interrupted started.1.active
              | _ => main_loop cfg events raises responds fuel (n + 1) []) :=
  rfl

/-- C2 counterexample: an unreadable file mid-wait does not yield a
cancelled outcome and does not stop the loop.  The monitor's bare `except`
swallows the read error and returns exactly as on a found trigger (the
`errorReturn` outcome, not `cancelled`), and the run loop — `stop_event`
being unset — shuts the run down and advances: started at run 1 with one
unit of fuel, it is next about to execute run 2. -/
theorem C2_read_error_advances_counterexample :
    monitor_trigger_file false true true [] [] TRIGGER_WORD =
      MonitorResult.errorReturn ∧
    main_loop [gnuradioTxLocal] (fun _ => RunEvent.monitorReadError)
      (fun _ _ => false) (fun _ => true) 1 1 [] =
      LoopResult.outOfFuel 2 [] := by
  refine ⟨rfl, by decide⟩

/-- C2 amended: if the target log file becomes unreadable while the trigger
wait is in progress, the monitor's bare `except` swallows the error and
returns as if the trigger had fired; the run loop then (with `stop_event`
unset, as it always is at that check) shuts the run down and advances to
the next run number. -/
theorem C2_read_error_shuts_down_and_advances (cfg : List ScriptConfig)
    (events : Nat → RunEvent) (raises : Nat → String → Bool)
    (responds : String → Bool) (fuel n : Nat)
    (act : List (String × ProcState)) (p : String)
    (hok : (start_scripts (run_log_dir n) (raises n) responds cfg
      { active := act, trigger_log_path := none }).2 = none)
    (htrig : (start_scripts (run_log_dir n) (raises n) responds cfg
      { active := act, trigger_log_path := none }).1.trigger_log_path =
        some p)
    (hev : events n = RunEvent.monitorReadError) :
    main_loop cfg events raises responds (fuel + 1) n act =
      main_loop cfg events raises responds fuel (n + 1) [] := by
  rw [main_loop_succ]
  simp only [hok, htrig, hev]

/-- C2 witness: the amended theorem applied at run 1 with the sample
trigger script and a read error during the wait. -/
theorem C2_read_error_witness :
    main_loop [gnuradioTxLocal] (fun _ => RunEvent.monitorReadError)
      (fun _ _ => false) (fun _ => true) 1 1 [] =
    main_loop [gnuradioTxLocal] (fun _ => RunEvent.monitorReadError)
      (fun _ _ => false) (fun _ => true) 0 2 [] :=
  C2_read_error_shuts_down_and_advances [gnuradioTxLocal]
    (fun _ => RunEvent.monitorReadError) (fun _ _ => false) (fun _ => true)
    0 1 [] "logs/run_1/Gnuradio_TX.txt" (by decide) (by decide) rfl

/-- C5 counterexample: with a configuration that parses but contains no
script (so the designated trigger source cannot be resolved among the
started processes), the loop breaks, the final shutdown runs and the
controller exits with status 0 — not the non-zero status the claim
requires for a trigger-source resolution failure. -/
theorem C5_trigger_missing_exit_zero_counterexample :
    overseer_program true [] (fun _ => RunEvent.monitorFound)
      (fun _ _ => false) (fun _ => true) 1 =
      some { exit_code := 0, final_shutdown_ran := true, leftover := [],
             stop_set_at_exit := false } := by decide

/-- C5 amended: the controller exits with status 1 when the configuration
document is absent or malformed; it exits with status 0 on an operator
interrupt; and on a trigger-source resolution failure it also exits with
status 0 (after running the final shutdown pass), not with a non-zero
status. -/
theorem C5_exit_codes_amended (cfg : List ScriptConfig)
    (events : Nat → RunEvent) (raises : Nat → String → Bool)
    (responds : String → Bool) (fuel : Nat) :
    overseer_program false cfg events raises responds fuel =
      some { exit_code := 1, final_shutdown_ran := false, leftover := [],
             stop_set_at_exit := false } ∧
    (∀ act, main_loop cfg events raises responds fuel 1 [] =
        LoopResult.interrupted act →
      (overseer_program true cfg events raises responds fuel).map
        (fun r => (r.exit_code, r.final_shutdown_ran)) = some (0, false)) ∧
    (∀ act, main_loop cfg events raises responds fuel 1 [] =
        LoopResult.fatalTriggerMissing act →
      (overseer_program true cfg events raises responds fuel).map
        (fun r => (r.exit_code, r.final_shutdown_ran)) = some (0, true)) := by
  refine ⟨rfl, ?_, ?_⟩ <;> intro act h <;>
    simp [overseer_program, h, shutdown_all_processes]

/-- C5 witness: the amended theorem's trigger-source-failure clause applied
to the empty script list. -/
theorem C5_exit_codes_witness :
    (overseer_program true [] (fun _ => RunEvent.monitorFound)
      (fun _ _ => false) (fun _ => true) 1).map
        (fun r => (r.exit_code, r.final_shutdown_ran)) = some (0, true) :=
  (C5_exit_codes_amended [] (fun _ => RunEvent.monitorFound)
    (fun _ _ => false) (fun _ => true) 1).2.2 [] (by decide)

/-- `find_first_idx` returns exactly the index of the first line containing
the trigger word: characterisation over `getElem?`. -/
theorem find_first_idx_eq_some_iff (tw : String) :
    ∀ (ls : List String) (i : Nat),
      find_first_idx tw ls = some i ↔
        ((∃ l, ls[i]? = some l ∧ containsSub l tw = true) ∧
         ∀ j l, j < i → ls[j]? = some l → containsSub l tw = false)
  | [], i => by simp [find_first_idx]
  | l :: ls, i => by
      cases hl : containsSub l tw with
      | true =>
          simp only [find_first_idx, hl, if_true]
          cases i with
          | zero =>
              simp only [List.getElem?_cons_zero, Option.some.injEq]
              constructor
              · intro _
                exact ⟨⟨l, rfl, hl⟩, fun j _ hj => absurd hj (Nat.not_lt_zero j)⟩
              · intro _
                trivial
          | succ k =>
              constructor
              · intro h
                injection h with h
                exact absurd h.symm (Nat.succ_ne_zero k)
              · rintro ⟨-, hmin⟩
                have h0 := hmin 0 l (Nat.succ_pos k) List.getElem?_cons_zero
                rw [hl] at h0
                cases h0
      | false =>
          simp only [find_first_idx, hl, Bool.false_eq_true, if_false]
          cases i with
          | zero =>
              simp only [Option.map_eq_some', List.getElem?_cons_zero]
              constructor
              · rintro ⟨a, -, ha⟩
                exact absurd ha (Nat.succ_ne_zero a)
              · rintro ⟨⟨l', hl', hc⟩, -⟩
                injection hl' with hl''
                rw [hl'', hc] at hl
                cases hl
          | succ k =>
              rw [Option.map_eq_some']
              constructor
              · rintro ⟨a, ha, hak⟩
                have hk : a = k := Nat.succ_injective hak
                subst hk
                obtain ⟨⟨l', hl', hc⟩, hmin⟩ :=
                  (find_first_idx_eq_some_iff tw ls a).mp ha
                refine ⟨⟨l', by simpa using hl', hc⟩, ?_⟩
                intro j m hj hm
                cases j with
                | zero =>
                    rw [List.getElem?_cons_zero] at hm
                    injection hm with hm
                    rw [← hm]
                    exact hl
                | succ j' =>
                    rw [List.getElem?_cons_succ] at hm
                    exact hmin j' m (Nat.lt_of_succ_lt_succ hj) hm
              · rintro ⟨⟨l', hl', hc⟩, hmin⟩
                rw [List.getElem?_cons_succ] at hl'
                refine ⟨k, ?_, rfl⟩
                refine (find_first_idx_eq_some_iff tw ls k).mpr
                  ⟨⟨l', hl', hc⟩, ?_⟩
                intro j m hj hm
                exact hmin (j + 1) m (Nat.succ_lt_succ hj)
                  (by simpa using hm)

/-- C4 counterexample: with `stop_event` unset and the file already present,
a file whose entire content predates monitoring (one pre-existing line
containing the trigger word, nothing appended afterwards) makes
`monitor_trigger_file` return the found outcome at line 0 — the source opens
the file at offset 0 and scans pre-existing content, refuting the claim that
only content appended after monitoring begins is scanned. -/
theorem C4_preexisting_content_scanned_counterexample :
    monitor_trigger_file false true false ["abc Finished xyz"] []
      TRIGGER_WORD = MonitorResult.found 0 ∧
    find_first_idx TRIGGER_WORD [] = none := by
  refine ⟨by decide, rfl⟩

/-- C4 amended: once the target file exists (and with no cancellation and no
read error), the monitor reads the file sequentially from its *beginning* —
pre-existing content included — and returns the found outcome exactly at the
index of the first line of the whole file that contains the phrase as a
substring, every earlier line not containing it; so it never re-triggers on
later occurrences. -/
theorem C4_found_iff_first_match_from_start (pre app : List String)
    (tw : String) (i : Nat) :
    monitor_trigger_file false true false pre app tw =
        MonitorResult.found i ↔
      ((∃ l, (pre ++ app)[i]? = some l ∧ containsSub l tw = true) ∧
       ∀ j l, j < i → (pre ++ app)[j]? = some l →
         containsSub l tw = false) := by
  rw [← find_first_idx_eq_some_iff]
  unfold monitor_trigger_file
  cases h : find_first_idx tw (pre ++ app) <;> simp [h]

/-- C4 witness: the amended characterisation applied at a concrete file in
which the second overall line (a pre-existing line) is the first one
containing the trigger word. -/
theorem C4_found_witness :
    monitor_trigger_file false true false ["boot", "abc Finished xyz"]
      ["tail"] TRIGGER_WORD = MonitorResult.found 1 :=
  (C4_found_iff_first_match_from_start ["boot", "abc Finished xyz"] ["tail"]
    TRIGGER_WORD 1).mpr
    ⟨⟨"abc Finished xyz", by decide, by decide⟩, by
      intro j m hj hm
      have hj0 : j = 0 := by omega
      subst hj0
      rw [show ((["boot", "abc Finished xyz"] ++ ["tail"] :
        List String))[0]? = some "boot" from rfl] at hm
      injection hm with hm
      subst hm
      decide⟩

/-- C6 witness: the idempotence theorem applied at a concrete state holding
one live process with an open log handle. -/
theorem C6_shutdown_witness :
    shutdown_all_processes (shutdown_all_processes sampleState).1 =
      ((shutdown_all_processes sampleState).1, []) ∧
    (shutdown_all_processes sampleState).1.active_processes = [] ∧
    (shutdown_all_processes sampleState).1.stop_event = false ∧
    (shutdown_all_processes sampleState).1.serial_open = false ∧
    ((shutdown_all_processes sampleState).2.all fun e =>
      !e.2.alive && !e.2.logOpen) = true :=
  C6_shutdown_idempotent_and_clean sampleState

/-- C7 witness: the termination theorem applied to a concrete live process
that ignores the graceful stop signal. -/
theorem C7_terminate_witness :
    (shutdown_entry sampleProc).2.head? = some Action.sigTerm ∧
    (shutdown_entry sampleProc).2.take 2 =
      [Action.sigTerm, Action.waitGrace] ∧
    (Action.sigKill ∈ (shutdown_entry sampleProc).2 ↔
      sampleProc.alive = true ∧ sampleProc.respondsToTerm = false) ∧
    (shutdown_entry sampleProc).2.getLast? = some Action.closeLog ∧
    (shutdown_entry sampleProc).1.alive = false ∧
    (shutdown_entry sampleProc).1.logOpen = false :=
  C7_terminate_grace_kill_close sampleProc

/-- C8 witness: the cancellation theorem applied to a concrete monitor call
with the stop signal set, the file present and a matching line available. -/
theorem C8_cancelled_witness :
    monitor_trigger_file true true false [] ["abc Finished xyz"]
      TRIGGER_WORD = MonitorResult.cancelled :=
  C8_cancelled_immediately_without_reading true false []
    ["abc Finished xyz"] TRIGGER_WORD

/-- C9 witness: the amended path theorem applied at run 2 for a script
named `Camera`. -/
theorem C9_log_paths_witness :
    log_filename (run_log_dir 2) "Camera" =
      "logs/run_" ++ toString 2 ++ "/" ++ "Camera" ++ ".txt" ∧
    serial_log_path 2 = "logs/run_" ++ toString 2 ++ "/serial.txt" :=
  C9_log_paths_txt 2 "Camera"

end Overseer
